import Mathlib

/-!
Verification of the Easy-Translate bot (`src/main.py`) against its
natural-language specification.

The program is a Telegram translation bot: it receives text or document
messages, calls an external translation endpoint (Yandex.Translate) and an
external speech endpoint (Yandex SpeechKit), and answers with translated
text, a translated file, and/or synthesized audio.

Shallow embedding conventions:
- Python strings are Lean `String`s (`len` = code-point count = `String.length`).
- Raw bytes are `List Nat` byte values;
  `str.encode('utf-8')` is `String.toUTF8`.
- The external world (translation endpoint, speech endpoint, Telegram file
  download) is an explicit environment of oracles; an operation that can raise
  an exception in Python returns `Except String _` here.
- The docx/pdf container formats handled by the `python-docx` / `PyPDF2`
  libraries are abstracted to their extracted-text structure: a docx file is
  its list of paragraph texts, a pdf its list of per-page extracted texts.
  `Document(); add_paragraph(t); save()` therefore produces the container
  `[t]`, and the extractor branches re-join with newline separators exactly
  as the source does.
- Handlers are modelled as functions from an environment and an incoming
  message to the list of observable events they perform (replies, message
  edits, external-client invocations), paired with an `Except` outcome for
  the exception that the handler-level `try/except` may catch.
-/

namespace EasyTranslate

/-- The `LANGUAGES` dict of `src/main.py` (insertion order preserved). -/
def LANGUAGES : List (String × String) :=
  [("en", "Английский"), ("ru", "Русский"), ("es", "Испанский"),
   ("fr", "Французский"), ("de", "Немецкий"), ("it", "Итальянский"),
   ("ja", "Японский"), ("zh", "Китайский")]

/-- Constant `MAX_TEXT_LENGTH = 10000`. -/
def MAX_TEXT_LENGTH : Nat := 10000

/-- Constant `MAX_FILE_SIZE = 5 * 1024 * 1024` (5MB). -/
def MAX_FILE_SIZE : Nat := 5 * 1024 * 1024

/-!
### Python string operations

The Lean core `String` functions of the same purpose (`String.replace`,
`String.toLower`, `String.splitOn`, ...) are implemented with byte-position
loops that the kernel cannot reduce, so the Python operations the source uses
are embedded here as structurally recursive functions over `String.data`
(the list of code points, which is exactly what Python iterates over). -/

/-- Python `str.split(sep)` for a one-character separator, on code-point
lists: `"a.b".split('.') = ["a","b"]`, `"".split('.') = [""]`. -/
def splitChar (sep : Char) : List Char → List (List Char)
  | [] => [[]]
  | c :: rest =>
    match splitChar sep rest with
    | h :: t => if c == sep then [] :: h :: t else (c :: h) :: t
    | [] => [[c]]

/-- Python `s.split(sep)` for a one-character separator. -/
def pySplit (s : String) (sep : Char) : List String :=
  (splitChar sep s.data).map String.mk

/-- Python `s.lower()` (the source only ever lowercases ASCII filename
extensions, where `Char.toLower` and Python agree). -/
def pyLower (s : String) : String :=
  String.mk (s.data.map Char.toLower)

/-- Worker for `pyReplace`: replaces every non-overlapping occurrence of
`pat`, scanning left to right. The fuel argument (instantiated with the
length of the scanned list, which every step strictly decreases) only makes
the recursion structural; it is never exhausted. -/
def replaceCharsFuel (pat rep : List Char) : Nat → List Char → List Char
  | 0, l => l
  | _ + 1, [] => []
  | fuel + 1, c :: rest =>
    if pat.isPrefixOf (c :: rest) && !pat.isEmpty then
      rep ++ replaceCharsFuel pat rep fuel (List.drop (pat.length - 1) rest)
    else
      c :: replaceCharsFuel pat rep fuel rest

/-- Python `s.replace(pat, rep)`: every non-overlapping occurrence,
left to right. -/
def pyReplace (s pat rep : String) : String :=
  String.mk (replaceCharsFuel pat.data rep.data s.data.length s.data)

/-- Python `c in s` for a one-character needle. -/
def pyContainsChar (s : String) (c : Char) : Bool :=
  s.data.contains c

/-- Python `s.startswith(p)`. -/
def pyStartsWith (s p : String) : Bool :=
  p.data.isPrefixOf s.data

/-- Python `s.rsplit(' ', 1)` for a string known to contain a space: the
part before the last space and the part after it. -/
def rsplitSpace (s : String) : String × String :=
  let ps := pySplit s ' '
  (String.intercalate " " ps.dropLast, ps.getLastD "")

/-- UTF-8 encoding of one code point, as byte values (each `< 256`). -/
def utf8EncodeCharNat (c : Char) : List Nat :=
  let n := c.toNat
  if n < 128 then [n]
  else if n < 2048 then [192 + n / 64, 128 + n % 64]
  else if n < 65536 then [224 + n / 4096, 128 + (n / 64) % 64, 128 + n % 64]
  else [240 + n / 262144, 128 + (n / 4096) % 64, 128 + (n / 64) % 64, 128 + n % 64]

/-- Python `s.encode('utf-8')`, as a list of byte values. -/
def utf8Encode (s : String) : List Nat :=
  s.data.flatMap utf8EncodeCharNat

/-- Is `b` a UTF-8 continuation byte (`0x80-0xBF`)? -/
def isContByte (b : Nat) : Bool :=
  128 ≤ b && b ≤ 191

/-- Strict UTF-8 decoding (rejecting overlong forms, surrogates and
out-of-range values, as Python `bytes.decode('utf-8')` does). -/
def utf8Decode : List Nat → Option (List Char)
  | [] => some []
  | b :: rest =>
    if b ≤ 127 then
      (utf8Decode rest).map (fun cs => Char.ofNat b :: cs)
    else if 194 ≤ b && b ≤ 223 then
      match rest with
      | b1 :: rest1 =>
        if isContByte b1 then
          (utf8Decode rest1).map
            (fun cs => Char.ofNat ((b - 192) * 64 + (b1 - 128)) :: cs)
        else none
      | [] => none
    else if 224 ≤ b && b ≤ 239 then
      match rest with
      | b1 :: b2 :: rest2 =>
        if (if b == 224 then 160 ≤ b1 && b1 ≤ 191
            else if b == 237 then 128 ≤ b1 && b1 ≤ 159
            else isContByte b1) && isContByte b2 then
          (utf8Decode rest2).map
            (fun cs =>
              Char.ofNat ((b - 224) * 4096 + (b1 - 128) * 64 + (b2 - 128)) :: cs)
        else none
      | _ => none
    else if 240 ≤ b && b ≤ 244 then
      match rest with
      | b1 :: b2 :: b3 :: rest3 =>
        if (if b == 240 then 144 ≤ b1 && b1 ≤ 191
            else if b == 244 then 128 ≤ b1 && b1 ≤ 143
            else isContByte b1) && isContByte b2 && isContByte b3 then
          (utf8Decode rest3).map
            (fun cs =>
              Char.ofNat
                ((b - 240) * 262144 + (b1 - 128) * 4096 + (b2 - 128) * 64
                  + (b3 - 128)) :: cs)
        else none
      | _ => none
    else none

/-- Python `bytes.decode('utf-8')` as a total function: `none` is the
`UnicodeDecodeError` case. -/
def pyDecodeUtf8 (bytes : List Nat) : Option String :=
  (utf8Decode bytes).map String.mk

/-- Python `code in LANGUAGES` (dict-key membership). -/
def isLang (code : String) : Bool :=
  LANGUAGES.any (fun p => p.1 == code)

/-- Python `LANGUAGES.get(code, code)`: display name with raw-code fallback. -/
def langName (code : String) : String :=
  match LANGUAGES.find? (fun p => p.1 == code) with
  | some p => p.2
  | none => code

/-- The too-long message of lines 55 and 242, the f-string
`"⚠ Текст слишком длинный (макс. {MAX_TEXT_LENGTH} символов)"` with
`MAX_TEXT_LENGTH = 10000` interpolated. -/
def tooLongMsg : String :=
  "⚠ Текст слишком длинный (макс. 10000 символов)"

/-- Function `translate_text` (lines 52-73). The network interaction
(`requests.post`, `raise_for_status`, JSON field access) is abstracted to a
`remote` oracle: `Except.ok t` is a 2xx response whose body parses to
`translations[0].text = t`; `Except.error e` is any exception raised in the
`try` block, caught and rendered as the `"⚠ Ошибка перевода: ..."` string.
The second component counts outbound network requests issued by this call. -/
def translate_text (remote : String → String → Except String String)
    (text : String) (target_lang : String) : String × Nat :=
  if text.length > MAX_TEXT_LENGTH then
    (tooLongMsg, 0)
  else
    match remote text target_lang with
    | Except.ok t => (t, 1)
    | Except.error e => ("⚠ Ошибка перевода: " ++ e, 1)

/-- Function `text_to_speech` (lines 75-98). The speech endpoint is the `remote`
oracle taking `(text, lang, voice)`; `Except.error` is any exception in the
`try` block (caught, returning `None`). The second component counts outbound
network requests issued by this call. -/
def text_to_speech (remote : String → String → String → Except String (List Nat))
    (text : String) (lang : String) : Option (List Nat) × Nat :=
  if text.length > 5000 then
    (none, 0)
  else
    let voice := if lang == "ru" then "alena" else "john"
    match remote text lang voice with
    | Except.ok content => (some content, 1)
    | Except.error _ => (none, 1)

/-!
### Documents and files

A downloaded or produced file is abstracted to the structure the two
container libraries expose: a docx file is its list of paragraph texts
(`doc.paragraphs`, each contributing `para.text`), a pdf its list of
per-page extracted texts (`page.extract_text()` per page, an image-only
page contributing `""`), and anything else its raw bytes. -/

/-- The content of a file, at the abstraction level of `src/main.py`. -/
inductive FileContent where
  | docx (paras : List String)
  | pdf (pages : List String)
  | raw (bytes : List Nat)
deriving DecidableEq

/-- An aiogram `BufferedInputFile`: file bytes plus a filename. -/
structure BuiltFile where
  content : FileContent
  filename : String
deriving DecidableEq

/-- Function `process_document` (lines 101-117) after the download: the
`bot.download_file` call inside its `try` block is the `downloaded`
argument (`Except.error` = download raised). The wildcard branches are the
library parse/decode exceptions (`Document(...)` / `PdfReader(...)` on
bytes that are not that container, `bytes.decode` on a binary container),
all caught by the function's own `except`, which returns `None`. -/
def process_document (downloaded : Except String FileContent)
    (file_type : String) : Option String :=
  match downloaded with
  | Except.error _ => none
  | Except.ok content =>
    if file_type == "docx" then
      match content with
      | FileContent.docx paras => some (String.intercalate "\n" paras)
      | _ => none
    else if file_type == "pdf" then
      match content with
      | FileContent.pdf pages => some (String.intercalate "\n" pages)
      | _ => none
    else
      match content with
      | FileContent.raw bytes => pyDecodeUtf8 bytes
      | _ => none

/-- Expression `original_filename.split('.')[-1].lower()` (lines 122 and 179). -/
def fileExtOf (name : String) : String :=
  pyLower ((pySplit name '.').getLastD "")

/-- Function `create_translated_file` (lines 119-135). `Document(); add_paragraph
(text); save(buffer)` produces the one-paragraph docx container `[text]`
(a fresh python-docx document has no paragraphs). Nothing in the `try`
body can raise at this abstraction level, so the `None` branch of the
source (its `except`) is never produced. -/
def create_translated_file (text : String) (original_filename : String) :
    Option BuiltFile :=
  let ext := fileExtOf original_filename
  let filename := "translated_" ++ original_filename
  if ext == "docx" then
    some ⟨FileContent.docx [text], filename⟩
  else
    some ⟨FileContent.raw (utf8Encode text), pyReplace filename ".pdf" ".txt"⟩

/-!
### The Message Router

`handle_document` (lines 171-225) and `handle_text` (lines 227-274) are
modelled as functions from an environment of external oracles and the
relevant attributes of the incoming message to the list of observable
events the handler performs, paired with an `Except` outcome recording
whether the handler body raised (the exception the handler's own
`try/except` catches). Telegram send/edit/delete operations are modelled
as always succeeding; the fallible steps are `bot.get_file`, the download
inside `process_document`, the two remote endpoints, and the
`AttributeError`/`TypeError` raised by attribute access on a message that
lacks the expected field (`message.document.file_name` / `message.text`
being `None`). -/

/-- One observable step of a handler: a Telegram operation or an
invocation of one of the internal clients. -/
inductive Event where
  | chatAction
  | reply (text : String)
  | editProgress (text : String)
  | deleteProgress
  | replyDocument (file : BuiltFile) (caption : String)
  | replyVoice (audio : List Nat) (filename : String) (caption : String)
  | getFileCall
  | extractCall (fileType : String)
  | translateCall (text : String) (target : String)
  | ttsCall (text : String) (lang : String)
deriving DecidableEq

/-- The external world one message handling runs against. -/
structure Env where
  translateRemote : String → String → Except String String
  ttsRemote : String → String → String → Except String (List Nat)
  getFile : Except String Unit
  download : Except String FileContent

/-- The attributes of an incoming document message the handler reads. -/
structure DocMessage where
  fileSize : Nat
  fileName : Option String
  caption : Option String

/-- Reply of line 176. -/
def oversizeMsg : String := "⚠ Файл слишком большой (макс. 5MB)"

/-- Reply of line 181. -/
def unsupportedMsg : String := "⚠ Поддерживаются только файлы: txt, docx, pdf"

/-- Placeholder of line 190. -/
def processingDocMsg : String := "⏳ Обрабатываю документ..."

/-- Edit of line 197. -/
def extractFailMsg : String := "⚠ Не удалось извлечь текст из файла"

/-- Edit of line 213. -/
def fileCreateFailMsg : String := "⚠ Ошибка создания файла с переводом"

/-- Catch-all reply of line 225. -/
def docGenericErrorMsg : String := "⚠ Произошла ошибка при обработке документа"

/-- Placeholder of line 246. -/
def processingTextMsg : String := "⏳ Обрабатываю запрос..."

/-- Supplementary notice of line 270. -/
def audioFailMsg : String :=
  "⚠ Не удалось сгенерировать озвучку (текстовый перевод сохранён выше)"

/-- Catch-all reply of line 274. -/
def textGenericErrorMsg : String := "⚠ Произошла ошибка при обработке текста"

/-- Target-language resolution of lines 185-187: the caption if it is a
recognized code, else `'ru'`. -/
def docTargetLang (msg : DocMessage) : String :=
  match msg.caption with
  | some c => if isLang c then c else "ru"
  | none => "ru"

/-- The body of `handle_document` (the `try` block, lines 174-221).
`text == ""` together with the `none` case is Python's `if not text:`
(line 196), which is taken both for `None` and for the empty string. -/
def handle_document_body (env : Env) (msg : DocMessage) :
    List Event × Except String Unit :=
  if msg.fileSize > MAX_FILE_SIZE then
    ([Event.reply oversizeMsg], Except.ok ())
  else
    match msg.fileName with
    | none => ([], Except.error "AttributeError: file_name is None")
    | some fname =>
      let file_ext := fileExtOf fname
      if !(["txt", "docx", "pdf"].contains file_ext) then
        ([Event.reply unsupportedMsg], Except.ok ())
      else
        let target_lang := docTargetLang msg
        let pre := [Event.chatAction, Event.reply processingDocMsg,
                    Event.getFileCall]
        match env.getFile with
        | Except.error e => (pre, Except.error e)
        | Except.ok _ =>
          let extracted := process_document env.download file_ext
          let pre2 := pre ++ [Event.extractCall file_ext]
          match extracted with
          | none => (pre2 ++ [Event.editProgress extractFailMsg], Except.ok ())
          | some text =>
            if text == "" then
              (pre2 ++ [Event.editProgress extractFailMsg], Except.ok ())
            else
              let translated :=
                (translate_text env.translateRemote text target_lang).1
              let pre3 := pre2 ++ [Event.translateCall text target_lang]
              if pyStartsWith translated "⚠" then
                (pre3 ++ [Event.editProgress translated], Except.ok ())
              else
                match create_translated_file translated fname with
                | none =>
                  (pre3 ++ [Event.editProgress fileCreateFailMsg],
                   Except.ok ())
                | some f =>
                  (pre3 ++
                    [Event.replyDocument f
                      ("✅ Перевод на " ++ langName target_lang),
                     Event.deleteProgress], Except.ok ())

/-- Handler `handle_document` (lines 171-225): run the body; the `except` block
(lines 223-225) turns any raised exception into the single generic reply. -/
def handle_document (env : Env) (msg : DocMessage) : List Event :=
  match handle_document_body env msg with
  | (tr, Except.ok _) => tr
  | (tr, Except.error _) => tr ++ [Event.reply docGenericErrorMsg]

/-- The language-token split of lines 230-238: if the text contains a
space and the part after the last space is a recognized code, that part is
the target language and the part before it the text; otherwise the whole
message is the text and the target defaults to `'ru'`. -/
def parse_text_message (user_text : String) : String × String :=
  if pyContainsChar user_text ' ' then
    let parts := rsplitSpace user_text
    if isLang parts.2 then parts else (user_text, "ru")
  else (user_text, "ru")

/-- The body of `handle_text` (the `try` block, lines 229-270).
`message.text` is `None` for non-text updates, making `' ' in user_text`
raise `TypeError` (line 234). The audio check mirrors Python's
`if audio_data:` (line 261), false for `None` and for empty bytes. -/
def handle_text_body (env : Env) (messageText : Option String) :
    List Event × Except String Unit :=
  match messageText with
  | none => ([], Except.error "TypeError: message.text is None")
  | some t0 =>
    let p := parse_text_message t0
    let user_text := p.1
    let target_lang := p.2
    if user_text.length > MAX_TEXT_LENGTH then
      ([Event.reply tooLongMsg], Except.ok ())
    else
      let pre := [Event.chatAction, Event.reply processingTextMsg]
      let translated :=
        (translate_text env.translateRemote user_text target_lang).1
      let pre2 := pre ++ [Event.translateCall user_text target_lang]
      if pyStartsWith translated "⚠" then
        (pre2 ++ [Event.editProgress translated], Except.ok ())
      else
        let pre3 := pre2 ++
          [Event.editProgress
            ("🔤 Перевод (" ++ langName target_lang ++ "):\n" ++ translated)]
        let audio := (text_to_speech env.ttsRemote translated target_lang).1
        let pre4 := pre3 ++ [Event.ttsCall translated target_lang]
        match audio with
        | some bs =>
          if bs.isEmpty then
            (pre4 ++ [Event.reply audioFailMsg], Except.ok ())
          else
            (pre4 ++
              [Event.replyVoice bs ("translation_" ++ target_lang ++ ".mp3")
                "🔊 Озвучка перевода"], Except.ok ())
        | none => (pre4 ++ [Event.reply audioFailMsg], Except.ok ())

/-- Handler `handle_text` (lines 227-274): run the body; the `except` block
(lines 272-274) turns any raised exception into the single generic reply. -/
def handle_text (env : Env) (messageText : Option String) : List Event :=
  match handle_text_body env messageText with
  | (tr, Except.ok _) => tr
  | (tr, Except.error _) => tr ++ [Event.reply textGenericErrorMsg]

/-- Modeled from the claim wording of C4: split off the trailing
whitespace-delimited token — the maximal run of non-whitespace characters
after the last whitespace character, paired with what stands before that
whitespace character. (The source itself splits at the last space
character only; this definition exists to state C4 as written.) -/
def wsLastToken (s : String) : String × String :=
  let r := s.data.reverse
  let tok := r.takeWhile (fun c => !c.isWhitespace)
  (String.mk ((r.drop (tok.length + 1)).reverse), String.mk tok.reverse)

/-- An environment whose translation endpoint succeeds with a text that
begins with the warning character, and whose speech endpoint works. -/
def warnOkEnv : Env :=
  { translateRemote := fun _ _ => Except.ok "⚠ hello"
  , ttsRemote := fun _ _ _ => Except.ok [1, 2]
  , getFile := Except.ok ()
  , download := Except.ok (FileContent.docx ["hi"]) }

/-- An environment whose translation endpoint succeeds with "X" and whose
speech endpoint is down. -/
def plainEnv : Env :=
  { translateRemote := fun _ _ => Except.ok "X"
  , ttsRemote := fun _ _ _ => Except.error "down"
  , getFile := Except.ok ()
  , download := Except.ok (FileContent.docx ["hi"]) }

/-- An environment whose download yields a one-page pdf whose only page
has no extractable text layer (it contributes the empty segment). -/
def emptyPdfEnv : Env :=
  { translateRemote := fun _ _ => Except.ok "X"
  , ttsRemote := fun _ _ _ => Except.error "down"
  , getFile := Except.ok ()
  , download := Except.ok (FileContent.pdf [""]) }

/-- A convenient over-long input: 10001 copies of `'a'`. -/
def longText10001 : String := String.mk (List.replicate 10001 'a')

/-- A convenient over-long synthesis input: 5001 copies of `'a'`. -/
def longText5001 : String := String.mk (List.replicate 5001 'a')

end EasyTranslate

namespace EasyTranslate

/-- C2: for every input text longer than 10,000 characters, `translate_text`
returns the too-long failure message and issues zero network requests,
whatever the remote endpoint would have answered. -/
theorem translate_text_too_long_no_network
    (remote : String → String → Except String String)
    (text target_lang : String) (h : text.length > MAX_TEXT_LENGTH) :
    translate_text remote text target_lang = (tooLongMsg, 0) := by
  unfold translate_text
  simp [h]

/-- C2 witness: a concrete 10001-character input takes the too-long branch
with zero network calls. -/
theorem translate_text_too_long_no_network_witness :
    translate_text (fun t _ => Except.ok t) longText10001 "ru" = (tooLongMsg, 0) :=
  translate_text_too_long_no_network (fun t _ => Except.ok t) longText10001 "ru"
    (by
      have h : longText10001.length = 10001 := by
        rw [longText10001, String.length]
        exact List.length_replicate 10001 'a'
      rw [h]
      norm_num [MAX_TEXT_LENGTH])

/-- C7: for every synthesis input longer than 5,000 characters,
`text_to_speech` returns `none` and issues zero network requests. -/
theorem text_to_speech_too_long_no_network
    (remote : String → String → String → Except String (List Nat))
    (text lang : String) (h : text.length > 5000) :
    text_to_speech remote text lang = (none, 0) := by
  unfold text_to_speech
  simp [h]

/-- C5 counterexample: the claim says the output filename is the original
prefixed with "translated_", with the extension rewritten to ".txt" only
when the original extension is pdf. For the original filename "a.pdf.txt"
the extension is "txt", so the claim predicts the filename
"translated_a.pdf.txt"; the code instead applies
`filename.replace('.pdf', '.txt')` for every non-docx extension and to
every occurrence, producing "translated_a.txt.txt". -/
theorem create_translated_file_cex :
    create_translated_file "hi" "a.pdf.txt" =
      some ⟨FileContent.raw (utf8Encode "hi"), "translated_a.txt.txt"⟩ ∧
    "translated_a.txt.txt" ≠ "translated_a.pdf.txt" := by
  constructor
  · decide
  · decide

/-- C5 amended: the output filename is the original prefixed with
"translated_"; for a non-docx extension the content is the translated text
encoded as UTF-8 and every occurrence of the substring ".pdf" in the
prefixed filename (whatever the original extension) is replaced by ".txt";
for a docx extension the content is the one-paragraph container and the
filename is left as prefixed. -/
theorem create_translated_file_amended :
    (∀ text original, fileExtOf original ≠ "docx" →
      create_translated_file text original =
        some ⟨FileContent.raw (utf8Encode text),
              pyReplace ("translated_" ++ original) ".pdf" ".txt"⟩) ∧
    (∀ text original, fileExtOf original = "docx" →
      create_translated_file text original =
        some ⟨FileContent.docx [text], "translated_" ++ original⟩) := by
  constructor
  · intro text original h
    unfold create_translated_file
    simp [h]
  · intro text original h
    unfold create_translated_file
    simp [h]

/-- C5 amended witness: concrete runs through both branches. -/
theorem create_translated_file_amended_witness :
    create_translated_file "hola" "r.pdf" =
      some ⟨FileContent.raw (utf8Encode "hola"),
            pyReplace ("translated_" ++ "r.pdf") ".pdf" ".txt"⟩ ∧
    create_translated_file "hola" "r.docx" =
      some ⟨FileContent.docx ["hola"], "translated_" ++ "r.docx"⟩ :=
  ⟨create_translated_file_amended.1 "hola" "r.pdf" (by decide),
   create_translated_file_amended.2 "hola" "r.docx" (by decide)⟩

/-- C6: round-trip — building a translated file from text `T` for an
original filename with a ".docx" extension yields the one-paragraph docx
container holding `T`, and the docx branch of the Extractor run on that
produced content yields exactly `T`. -/
theorem docx_round_trip (T fname : String) (h : fileExtOf fname = "docx") :
    create_translated_file T fname =
      some ⟨FileContent.docx [T], "translated_" ++ fname⟩ ∧
    process_document (Except.ok (FileContent.docx [T])) "docx" = some T := by
  constructor
  · unfold create_translated_file
    simp [h]
  · rfl

/-- C6 witness: the round trip at a concrete text and filename. -/
theorem docx_round_trip_witness :
    create_translated_file "Привет" "f.docx" =
      some ⟨FileContent.docx ["Привет"], "translated_" ++ "f.docx"⟩ ∧
    process_document (Except.ok (FileContent.docx ["Привет"])) "docx" =
      some "Привет" :=
  docx_round_trip "Привет" "f.docx" (by decide)

/-- C7 witness: a concrete 5001-character input returns `none` with zero
network calls. -/
theorem text_to_speech_too_long_no_network_witness :
    text_to_speech (fun _ _ _ => Except.ok [0]) longText5001 "en" = (none, 0) :=
  text_to_speech_too_long_no_network (fun _ _ _ => Except.ok [0]) longText5001 "en"
    (by
      have h : longText5001.length = 5001 := by
        rw [longText5001, String.length]
        exact List.length_replicate 5001 'a'
      rw [h]
      norm_num)

/-- Helper: the except wrapper of `handle_text` only ever appends, so any
event of the body's trace is in the handler's trace. -/
theorem mem_handle_text_of_mem_body (env : Env) (mt : Option String)
    (e : Event) (h : e ∈ (handle_text_body env mt).1) :
    e ∈ handle_text env mt := by
  unfold handle_text
  rcases hb : handle_text_body env mt with ⟨tr, ex⟩
  rw [hb] at h
  cases ex with
  | ok u => exact h
  | error msg => exact List.mem_append_left _ h

/-- Helper: past the length check, the text flow always records the
translation-client invocation with the split text and target. -/
theorem handle_text_translate_mem (env : Env) (t0 : String)
    (h : (parse_text_message t0).1.length ≤ MAX_TEXT_LENGTH) :
    Event.translateCall (parse_text_message t0).1 (parse_text_message t0).2 ∈
      handle_text env (some t0) := by
  apply mem_handle_text_of_mem_body
  simp only [handle_text_body]
  rw [if_neg (Nat.not_lt.mpr h)]
  repeat' split
  all_goals simp

/-- C9: whatever the environment does and whatever message arrives, each
handler returns a plain reply trace — when its body raises, the exception
is caught and converted into the single generic error reply appended to
the actions already performed, and nothing propagates out. -/
theorem handler_catches_exceptions :
    (∀ env msg,
      (∃ tr, handle_document_body env msg = (tr, Except.ok ()) ∧
        handle_document env msg = tr) ∨
      (∃ tr e, handle_document_body env msg = (tr, Except.error e) ∧
        handle_document env msg = tr ++ [Event.reply docGenericErrorMsg])) ∧
    (∀ env mt,
      (∃ tr, handle_text_body env mt = (tr, Except.ok ()) ∧
        handle_text env mt = tr) ∨
      (∃ tr e, handle_text_body env mt = (tr, Except.error e) ∧
        handle_text env mt = tr ++ [Event.reply textGenericErrorMsg])) := by
  constructor
  · intro env msg
    rcases hb : handle_document_body env msg with ⟨tr, ex⟩
    cases ex with
    | ok u =>
      cases u
      exact Or.inl ⟨tr, rfl, by unfold handle_document; rw [hb]⟩
    | error e =>
      exact Or.inr ⟨tr, e, rfl, by unfold handle_document; rw [hb]⟩
  · intro env mt
    rcases hb : handle_text_body env mt with ⟨tr, ex⟩
    cases ex with
    | ok u =>
      cases u
      exact Or.inl ⟨tr, rfl, by unfold handle_text; rw [hb]⟩
    | error e =>
      exact Or.inr ⟨tr, e, rfl, by unfold handle_text; rw [hb]⟩

/-- Helper: once a document message passes the size and extension checks,
the flow reaches the processing stage (typing indicator, placeholder,
file-info request), whatever happens afterwards. -/
theorem handle_document_body_reaches (env : Env) (msg : DocMessage)
    (fname : String) (h1 : msg.fileName = some fname)
    (h2 : msg.fileSize ≤ MAX_FILE_SIZE)
    (h3 : ["txt", "docx", "pdf"].contains (fileExtOf fname) = true) :
    ∃ rest, (handle_document_body env msg).1 =
      Event.chatAction :: Event.reply processingDocMsg ::
        Event.getFileCall :: rest := by
  unfold handle_document_body
  rw [if_neg (Nat.not_lt.mpr h2), h1]
  simp only [h3, Bool.not_true, Bool.false_eq_true, if_false]
  split
  · exact ⟨_, rfl⟩
  · split
    · exact ⟨_, rfl⟩
    · split
      · exact ⟨_, rfl⟩
      · split
        · exact ⟨_, rfl⟩
        · split
          · exact ⟨_, rfl⟩
          · exact ⟨_, rfl⟩

/-- C3: a document larger than 5 MB is answered with the oversized-file
message alone — the Extractor and the Translation Client are never invoked
— while a document at or under the bound whose extension is txt, docx or
pdf passes both validations and reaches the processing stage. -/
theorem document_validation :
    (∀ env msg, msg.fileSize > MAX_FILE_SIZE →
      handle_document env msg = [Event.reply oversizeMsg] ∧
      (∀ ft, Event.extractCall ft ∉ handle_document env msg) ∧
      (∀ t l, Event.translateCall t l ∉ handle_document env msg)) ∧
    (∀ env msg fname, msg.fileName = some fname →
      msg.fileSize ≤ MAX_FILE_SIZE →
      ["txt", "docx", "pdf"].contains (fileExtOf fname) = true →
      List.take 3 (handle_document env msg) =
        [Event.chatAction, Event.reply processingDocMsg,
         Event.getFileCall]) := by
  constructor
  · intro env msg h
    have ht : handle_document env msg = [Event.reply oversizeMsg] := by
      unfold handle_document handle_document_body
      rw [if_pos h]
    refine ⟨ht, ?_, ?_⟩
    · intro ft
      rw [ht]
      simp
    · intro t l
      rw [ht]
      simp
  · intro env msg fname h1 h2 h3
    obtain ⟨rest, hr⟩ := handle_document_body_reaches env msg fname h1 h2 h3
    unfold handle_document
    rcases hb : handle_document_body env msg with ⟨tr, ex⟩
    rw [hb] at hr
    have htr : tr = Event.chatAction :: Event.reply processingDocMsg ::
        Event.getFileCall :: rest := hr
    cases ex with
    | ok u =>
      show List.take 3 tr = _
      rw [htr]
      rfl
    | error e =>
      show List.take 3 (tr ++ [Event.reply docGenericErrorMsg]) = _
      rw [htr]
      rfl

/-- C3 witness: a 6 MB "report.pdf" is rejected with the oversized-file
reply (hence no extraction and no translation call), and a small "a.txt"
passes validation and reaches the processing stage. -/
theorem document_validation_witness :
    handle_document plainEnv ⟨6 * 1024 * 1024, some "report.pdf", none⟩ =
      [Event.reply oversizeMsg] ∧
    List.take 3 (handle_document plainEnv ⟨100, some "a.txt", none⟩) =
      [Event.chatAction, Event.reply processingDocMsg, Event.getFileCall] :=
  ⟨(document_validation.1 plainEnv ⟨6 * 1024 * 1024, some "report.pdf", none⟩
      (by norm_num [MAX_FILE_SIZE])).1,
   document_validation.2 plainEnv ⟨100, some "a.txt", none⟩ "a.txt" rfl
      (by norm_num [MAX_FILE_SIZE]) (by decide)⟩

/-- C1 counterexample: the Router does not use a tagged result — it detects
failure by inspecting the returned string. In an environment whose remote
translation call succeeds with the text "⚠ hello" (which merely begins with
the warning character), the text flow takes the failure branch: the
placeholder is edited to the raw string, the flow stops, no synthesis call
and no voice reply happen; the document flow likewise stops without
building a file. -/
theorem tagged_result_cex :
    warnOkEnv.translateRemote "hi" "ru" = Except.ok "⚠ hello" ∧
    handle_text warnOkEnv (some "hi") =
      [Event.chatAction, Event.reply processingTextMsg,
       Event.translateCall "hi" "ru", Event.editProgress "⚠ hello"] ∧
    Event.ttsCall "⚠ hello" "ru" ∉ handle_text warnOkEnv (some "hi") ∧
    handle_document warnOkEnv ⟨100, some "d.docx", none⟩ =
      [Event.chatAction, Event.reply processingDocMsg, Event.getFileCall,
       Event.extractCall "docx", Event.translateCall "hi" "ru",
       Event.editProgress "⚠ hello"] := by
  refine ⟨rfl, by decide, by decide, by decide⟩

/-- C1 amended: the Router distinguishes translation failure from success
by testing whether the string returned by the Translation Client starts
with the warning character "⚠"; whenever it does — even when the remote
call succeeded — both the text flow and the document flow take the failure
branch: the placeholder is edited to that string and the flow terminates. -/
theorem warn_detection_amended :
    (∀ env t0,
      (parse_text_message t0).1.length ≤ MAX_TEXT_LENGTH →
      pyStartsWith (translate_text env.translateRemote
        (parse_text_message t0).1 (parse_text_message t0).2).1 "⚠" = true →
      handle_text env (some t0) =
        [Event.chatAction, Event.reply processingTextMsg,
         Event.translateCall (parse_text_message t0).1 (parse_text_message t0).2,
         Event.editProgress (translate_text env.translateRemote
           (parse_text_message t0).1 (parse_text_message t0).2).1]) ∧
    (∀ env msg fname text,
      msg.fileName = some fname →
      msg.fileSize ≤ MAX_FILE_SIZE →
      ["txt", "docx", "pdf"].contains (fileExtOf fname) = true →
      env.getFile = Except.ok () →
      process_document env.download (fileExtOf fname) = some text →
      (text == "") = false →
      pyStartsWith (translate_text env.translateRemote text
        (docTargetLang msg)).1 "⚠" = true →
      handle_document env msg =
        [Event.chatAction, Event.reply processingDocMsg, Event.getFileCall,
         Event.extractCall (fileExtOf fname),
         Event.translateCall text (docTargetLang msg),
         Event.editProgress (translate_text env.translateRemote text
           (docTargetLang msg)).1]) := by
  constructor
  · intro env t0 h1 h2
    unfold handle_text
    simp only [handle_text_body]
    rw [if_neg (Nat.not_lt.mpr h1)]
    simp [h2]
  · intro env msg fname text h1 h2 h3 h4 h5 h6 h7
    unfold handle_document
    simp only [handle_document_body]
    rw [if_neg (Nat.not_lt.mpr h2), h1]
    simp [h3, h4, h5, h6, h7]
    have h3' : fileExtOf fname = "txt" ∨ fileExtOf fname = "docx" ∨
        fileExtOf fname = "pdf" := by simpa using h3
    rcases h3' with h | h | h <;> simp [h]

/-- C1 amended witness: the failure branch at the concrete success
"⚠ hello" in both flows. -/
theorem warn_detection_amended_witness :
    handle_text warnOkEnv (some "hi") =
      [Event.chatAction, Event.reply processingTextMsg,
       Event.translateCall "hi" "ru", Event.editProgress "⚠ hello"] ∧
    handle_document warnOkEnv ⟨100, some "d.docx", none⟩ =
      [Event.chatAction, Event.reply processingDocMsg, Event.getFileCall,
       Event.extractCall "docx", Event.translateCall "hi" "ru",
       Event.editProgress "⚠ hello"] :=
  ⟨warn_detection_amended.1 warnOkEnv "hi" (by decide) (by decide),
   warn_detection_amended.2 warnOkEnv ⟨100, some "d.docx", none⟩ "d.docx" "hi"
     rfl (by decide) (by decide) rfl (by decide) (by decide) (by decide)⟩

/-- C4 counterexample: the claim speaks of a trailing whitespace-delimited
token, but the code splits at the last space character only. In
"Hello\nes" the trailing whitespace-delimited token is "es", a recognized
language code, yet the handler calls the Translation Client with the whole
message and the default target "ru", not with ("Hello", "es"). -/
theorem split_token_cex :
    wsLastToken "Hello\nes" = ("Hello", "es") ∧
    isLang "es" = true ∧
    Event.translateCall "Hello" "es" ∉ handle_text plainEnv (some "Hello\nes") ∧
    Event.translateCall "Hello\nes" "ru" ∈
      handle_text plainEnv (some "Hello\nes") := by
  refine ⟨by decide, by decide, by decide, by decide⟩

/-- C4 amended: the split is at the last space character (`' '` only). If
the message contains a space and the part after the last space is a
recognized language code, the Translation Client is invoked with the part
before that space as the text and the token as the target; otherwise it is
invoked with the whole message and the default target "ru" — in both cases
provided the chosen text does not exceed the 10,000-character bound
(otherwise no call is made at all). -/
theorem split_token_amended :
    (∀ env t0,
      pyContainsChar t0 ' ' = true →
      isLang (rsplitSpace t0).2 = true →
      (rsplitSpace t0).1.length ≤ MAX_TEXT_LENGTH →
      Event.translateCall (rsplitSpace t0).1 (rsplitSpace t0).2 ∈
        handle_text env (some t0)) ∧
    (∀ env t0,
      (pyContainsChar t0 ' ' = false ∨ isLang (rsplitSpace t0).2 = false) →
      t0.length ≤ MAX_TEXT_LENGTH →
      Event.translateCall t0 "ru" ∈ handle_text env (some t0)) := by
  constructor
  · intro env t0 h1 h2 h3
    have hp : parse_text_message t0 = rsplitSpace t0 := by
      simp [parse_text_message, h1, h2]
    have hm := handle_text_translate_mem env t0 (by rw [hp]; exact h3)
    rw [hp] at hm
    exact hm
  · intro env t0 h1 h2
    have hp : parse_text_message t0 = (t0, "ru") := by
      rcases h1 with h | h
      · simp [parse_text_message, h]
      · by_cases hc : pyContainsChar t0 ' ' = true
        · simp [parse_text_message, hc, h]
        · simp only [Bool.not_eq_true] at hc
          simp [parse_text_message, hc]
    have hm := handle_text_translate_mem env t0 (by rw [hp]; exact h2)
    rw [hp] at hm
    exact hm

/-- C4 amended witness: "Hello world es" yields the call
("Hello world", "es"); "Привет" (no space) yields ("Привет", "ru"). -/
theorem split_token_amended_witness :
    Event.translateCall "Hello world" "es" ∈
      handle_text plainEnv (some "Hello world es") ∧
    Event.translateCall "Привет" "ru" ∈ handle_text plainEnv (some "Привет") :=
  ⟨split_token_amended.1 plainEnv "Hello world es" (by decide) (by decide)
      (by decide),
   split_token_amended.2 plainEnv "Привет" (Or.inl (by decide)) (by decide)⟩

/-- C8: in every text-flow run where translation succeeds (no warning
tag) and synthesis returns absence, the user gets exactly: the typing
indicator, the placeholder, the translation call, the placeholder edited
to show the translated text, the synthesis call, and a separate
supplementary audio-failed notice — the translated-text edit is never
replaced by or merged into a failure reply. -/
theorem text_flow_audio_fail (env : Env) (t0 : String)
    (h1 : (parse_text_message t0).1.length ≤ MAX_TEXT_LENGTH)
    (h2 : pyStartsWith (translate_text env.translateRemote
      (parse_text_message t0).1 (parse_text_message t0).2).1 "⚠" = false)
    (h3 : (text_to_speech env.ttsRemote
      (translate_text env.translateRemote (parse_text_message t0).1
        (parse_text_message t0).2).1 (parse_text_message t0).2).1 = none) :
    handle_text env (some t0) =
      [Event.chatAction, Event.reply processingTextMsg,
       Event.translateCall (parse_text_message t0).1 (parse_text_message t0).2,
       Event.editProgress ("🔤 Перевод (" ++ langName (parse_text_message t0).2
         ++ "):\n" ++ (translate_text env.translateRemote
           (parse_text_message t0).1 (parse_text_message t0).2).1),
       Event.ttsCall (translate_text env.translateRemote
         (parse_text_message t0).1 (parse_text_message t0).2).1
         (parse_text_message t0).2,
       Event.reply audioFailMsg] := by
  unfold handle_text
  simp only [handle_text_body]
  rw [if_neg (Nat.not_lt.mpr h1)]
  simp [h2, h3]

/-- C8 witness: "Hello fr" with a working translation endpoint and a dead
speech endpoint — the translated text is shown and the audio-failed
notice is a separate reply. -/
theorem text_flow_audio_fail_witness :
    handle_text plainEnv (some "Hello fr") =
      [Event.chatAction, Event.reply processingTextMsg,
       Event.translateCall "Hello" "fr",
       Event.editProgress "🔤 Перевод (Французский):\nX",
       Event.ttsCall "X" "fr",
       Event.reply audioFailMsg] :=
  text_flow_audio_fail plainEnv "Hello fr" (by decide) (by decide) (by decide)

/-- C10: when extraction succeeds but yields the empty string, the
document flow behaves exactly as on extraction failure — the placeholder
is edited to the extraction-failure message and the Translation Client is
never invoked. -/
theorem empty_extraction_as_failure (env : Env) (msg : DocMessage)
    (fname : String)
    (h1 : msg.fileName = some fname)
    (h2 : msg.fileSize ≤ MAX_FILE_SIZE)
    (h3 : ["txt", "docx", "pdf"].contains (fileExtOf fname) = true)
    (h4 : env.getFile = Except.ok ())
    (h5 : process_document env.download (fileExtOf fname) = some "") :
    handle_document env msg =
      [Event.chatAction, Event.reply processingDocMsg, Event.getFileCall,
       Event.extractCall (fileExtOf fname),
       Event.editProgress extractFailMsg] ∧
    (∀ t l, Event.translateCall t l ∉ handle_document env msg) := by
  have ht : handle_document env msg =
      [Event.chatAction, Event.reply processingDocMsg, Event.getFileCall,
       Event.extractCall (fileExtOf fname),
       Event.editProgress extractFailMsg] := by
    unfold handle_document
    simp only [handle_document_body]
    rw [if_neg (Nat.not_lt.mpr h2), h1]
    simp [h3, h4, h5]
    have h3' : fileExtOf fname = "txt" ∨ fileExtOf fname = "docx" ∨
        fileExtOf fname = "pdf" := by simpa using h3
    rcases h3' with h | h | h <;> simp [h]
  refine ⟨ht, ?_⟩
  intro t l
  rw [ht]
  simp

/-- C10 witness: a single image-only-page pdf extracts to the empty
string; the flow reports extraction failure and never calls translation. -/
theorem empty_extraction_as_failure_witness :
    handle_document emptyPdfEnv ⟨100, some "scan.pdf", none⟩ =
      [Event.chatAction, Event.reply processingDocMsg, Event.getFileCall,
       Event.extractCall "pdf", Event.editProgress extractFailMsg] :=
  (empty_extraction_as_failure emptyPdfEnv ⟨100, some "scan.pdf", none⟩
    "scan.pdf" rfl (by decide) (by decide) rfl (by decide)).1

end EasyTranslate
